import Mathlib

/-
Shallow embedding of src/src/components/VideoCall.js (the VideoCall React
component): the stream-presentation and voice-activity core.

Part 1 models the body of detectVolume (lines 166-184) together with the
800 ms silence timeout it arms: per-tick frequency averaging, the > 20
threshold, and the clearTimeout/setTimeout debounce.

Part 2 models the component's lifecycle as a labelled transition system:
React state (isLoading, error, localStream, isSpeaking), the video sink
(srcObject, muted, volume), the document-level enableAudio listeners, the
requestAnimationFrame sampling loops started by setupAudioAnalyser, and
track stopping in the unmount cleanup.
-/

namespace VideoCall

/-! ### Part 1: detectVolume and the silence timer -/

/-- State of the voice-activity detector: the `isSpeaking` flag and the
deadline of the currently armed silence timeout, if any (absolute time in
ms; `setTimeout(..., 800)` armed at time `t` fires at `t + 800`). -/
structure VadState where
  speaking : Bool
  silenceDeadline : Option Nat
deriving DecidableEq, Repr

/-- Mean of the frequency-bin magnitudes, as computed at lines 168-172:
`values / dataArray.length` after summing every entry. -/
def average (mags : List Nat) : ℚ :=
  (mags.sum : ℚ) / (mags.length : ℚ)

/-- One invocation of the body of `detectVolume` (lines 166-184) at time
`now` reading magnitudes `mags`: if the average is strictly above 20, set
`speaking := true`, cancel any pending silence timeout (`clearTimeout`)
and arm a fresh one for 800 ms later; otherwise do nothing. -/
def detectVolumeTick (now : Nat) (mags : List Nat) (s : VadState) : VadState :=
  if 20 < average mags then
    { speaking := true, silenceDeadline := some (now + 800) }
  else s

/-- The silence-timeout callback (lines 178-180) considered at time `now`:
it runs only if a timeout is still armed and its 800 ms deadline has been
reached (a timeout cancelled by `clearTimeout` no longer exists), and then
sets `speaking := false`. -/
def silenceTimerFire (now : Nat) (s : VadState) : VadState :=
  match s.silenceDeadline with
  | some d => if d ≤ now then { speaking := false, silenceDeadline := none } else s
  | none => s

/-! ### Part 2: component lifecycle as a labelled transition system -/

/-- A media track. `isAudio` distinguishes the entries of
`getAudioTracks()` from those of `getVideoTracks()`. -/
structure Track where
  tid : Nat
  isAudio : Bool
deriving DecidableEq, Repr

/-- A MediaStream: an identity plus its current track list. -/
structure MediaStream where
  sid : Nat
  tracks : List Track
deriving DecidableEq, Repr

/-- The list `stream.getAudioTracks()`. -/
def MediaStream.audioTracks (s : MediaStream) : List Track :=
  s.tracks.filter (fun t => t.isAudio)

/-- The component's observable and hidden state.

React state hooks (lines 22-28): `isLoading`, `error` (`errorMsg` here),
`localStream`, `isSpeaking`.  Props: `streamProp` (`stream`), `isRemote`.
The video sink `videoRef.current`: `sinkSrc` (srcObject), `sinkMuted`,
`sinkVolume`; `playCalls` counts invocations of `videoRef.current.play()`.
`loops` counts the self-rescheduling `detectVolume` animation-frame loops
currently running (the source contains no `cancelAnimationFrame`, so a
started loop never stops); `timerArmed` records whether some loop's
silence timeout is pending.  `clickRegs` / `touchRegs` count the
`enableAudio` closures currently registered on the document for `click`
resp. `touchstart`.  `acquiring` records an outstanding
`getUserMedia` request.  `selfTracks` is the ghost set of all tracks ever
returned by `getUserMedia` (self-acquired); `stoppedTracks` collects every
track on which `track.stop()` was called.  `disposed` is set when the
component unmounts (after which `videoRef.current` is null). -/
structure Ctrl where
  streamProp : Option MediaStream
  isRemote : Bool
  isLoading : Bool
  errorMsg : Option String
  localStream : Option MediaStream
  isSpeaking : Bool
  sinkSrc : Option MediaStream
  sinkMuted : Bool
  sinkVolume : ℚ
  playCalls : Nat
  loops : Nat
  timerArmed : Bool
  clickRegs : Nat
  touchRegs : Nat
  acquiring : Bool
  selfTracks : List Track
  stoppedTracks : List Track
  disposed : Bool
deriving DecidableEq, Repr

/-- Initial state after mount (lines 22-28): loading, no error, no local
stream, not speaking, nothing attached, default sink volume 1.0. -/
def initCtrl (s : Option MediaStream) (remote : Bool) : Ctrl :=
  { streamProp := s, isRemote := remote, isLoading := true, errorMsg := none,
    localStream := none, isSpeaking := false, sinkSrc := none,
    sinkMuted := false, sinkVolume := 1, playCalls := 0, loops := 0,
    timerArmed := false, clickRegs := 0, touchRegs := 0, acquiring := false,
    selfTracks := [], stoppedTracks := [], disposed := false }

/-- The selection `const currentStream = stream || localStream` (lines 124, 146, 232):
the externally supplied stream when present, the self-acquired one
otherwise. -/
def currentStream (c : Ctrl) : Option MediaStream :=
  match c.streamProp with
  | some s => some s
  | none => c.localStream

/-- The stream whose addtrack/removetrack events the track-change effect
observes (line 124): `stream || localStream`. -/
def trackEffectTarget (c : Ctrl) : Option MediaStream :=
  currentStream c

/-- The stream the audio-level-detection effect (lines 144-152) would
analyse: only non-remote instances analyse, and they analyse
`stream || localStream`. -/
def audioEffectTarget (c : Ctrl) : Option MediaStream :=
  if c.isRemote then none else currentStream c

/-- The list `localStream.getTracks()` (line 227), the track list the cleanup
stops; empty when no local stream is stored. -/
def localTracks (c : Ctrl) : List Track :=
  (c.localStream.map (fun l => l.tracks)).getD []

/-- The function `setupAudioAnalyser` (lines 154-190): on success of the try block it
starts one more never-cancelled `detectVolume` animation-frame loop; if
constructing the audio context / analyser throws, the catch block only
logs (`console.warn`) and changes nothing. -/
def setupAudioAnalyser (ok : Bool) (c : Ctrl) : Ctrl :=
  if ok then { c with loops := c.loops + 1 } else c

/-- The asynchronous tasks and effect executions of the component.

* `propsChange s remote`: the parent re-renders the component with new
  props.
* `attachEffect playOk`: the effect at lines 31-72 runs; `playOk` is
  whether `videoRef.current.play()` resolves (false = autoplay blocked).
* `acquireOk s analyserOk`: the `getUserMedia` promise inside
  `getLocalCamera` (lines 75-120) resolves with stream `s`; `analyserOk`
  is whether `setupAudioAnalyser` succeeds at line 111.  (A local autoplay
  failure at line 105 is warn-only, so it is not a parameter.)
* `acquireFail msg`: that promise rejects; the catch at lines 115-119.
* `audioEffect analyserOk`: the audio-level-detection effect at lines
  144-152 runs.
* `interact retryOk`: the user clicks or touches the document, running
  every registered `enableAudio` closure (lines 49-57); `retryOk` is the
  outcome of the retried `play()`.
* `retryClick`: the user presses the Retry Camera Access button (line
  277), re-invoking `getLocalCamera`; the button exists only while the
  error panel is rendered.
* `samplingTick loud`: one iteration of some running `detectVolume` loop;
  `loud` is whether the average exceeded 20.
* `silenceFire`: a pending silence timeout fires (lines 178-180).
* `dispose`: the component unmounts and the cleanup at lines 224-230
  runs. -/
inductive Ev where
  | propsChange (s : Option MediaStream) (remote : Bool)
  | attachEffect (playOk : Bool)
  | acquireOk (s : MediaStream) (analyserOk : Bool)
  | acquireFail (msg : String)
  | audioEffect (analyserOk : Bool)
  | interact (retryOk : Bool)
  | retryClick
  | samplingTick (loud : Bool)
  | silenceFire
  | dispose
deriving DecidableEq, Repr

/-- One transition of the component. Each branch transcribes the
corresponding source lines; see the constructor docs of `Ev`. -/
def step (e : Ev) (c : Ctrl) : Ctrl :=
  match e with
  | .propsChange s remote => { c with streamProp := s, isRemote := remote }
  | .attachEffect playOk =>
      match c.streamProp with
      | some s =>
          -- lines 32-65: attach and play; on rejection, loading still
          -- ends (line 45) and a remote instance registers a fresh
          -- enableAudio closure for click and touchstart (lines 59-60).
          let c1 := { c with sinkSrc := some s, playCalls := c.playCalls + 1 }
          if playOk then { c1 with isLoading := false }
          else if c1.isRemote then
            { c1 with isLoading := false,
                      clickRegs := c1.clickRegs + 1,
                      touchRegs := c1.touchRegs + 1 }
          else { c1 with isLoading := false }
      | none =>
          if c.isRemote then
            -- line 70: no stream, remote: stop loading, wait passively.
            { c with isLoading := false }
          else
            -- line 68 → getLocalCamera synchronous prefix (lines 77-78):
            -- setIsLoading(true), setError(null), then await getUserMedia.
            { c with isLoading := true, errorMsg := none, acquiring := true }
  | .acquireOk s analyserOk =>
      if c.acquiring then
        -- lines 96-113: store the stream, attach and play it (guarded by
        -- videoRef.current, line 99), set up the analyser, stop loading.
        -- Replacing localStream also reruns the cleanup effect at lines
        -- 224-230 for the previous value, stopping its tracks (React runs
        -- an effect cleanup when its dependency changes, unmounted
        -- components excepted).
        let c1 := { c with acquiring := false, localStream := some s,
                           selfTracks := c.selfTracks ++ s.tracks,
                           stoppedTracks :=
                             if c.disposed then c.stoppedTracks
                             else c.stoppedTracks ++ localTracks c,
                           sinkSrc := if c.disposed then c.sinkSrc else some s,
                           playCalls := if c.disposed then c.playCalls
                                        else c.playCalls + 1 }
        let c2 := setupAudioAnalyser analyserOk c1
        { c2 with isLoading := false }
      else c
  | .acquireFail msg =>
      if c.acquiring then
        -- lines 115-119: log, setError(error.message), setIsLoading(false).
        -- No stream was produced: localStream and the ghost allocation
        -- sets are untouched.
        { c with acquiring := false, errorMsg := some msg, isLoading := false }
      else c
  | .audioEffect analyserOk =>
      -- lines 144-152: only when not remote and a stream exists and it
      -- has at least one audio track.
      match audioEffectTarget c with
      | some cs =>
          if 0 < cs.audioTracks.length then setupAudioAnalyser analyserOk c
          else c
      | none => c
  | .interact _retryOk =>
      -- lines 49-60: every registered enableAudio closure runs; each one
      -- unmutes, sets volume to 1.0 and calls play() if videoRef.current
      -- is non-null (it is null after unmount), and in every case removes
      -- itself from both the click and the touchstart registrations.
      if 0 < c.clickRegs then
        if c.disposed then { c with clickRegs := 0, touchRegs := 0 }
        else
          { c with sinkMuted := false, sinkVolume := 1,
                   playCalls := c.playCalls + c.clickRegs,
                   clickRegs := 0, touchRegs := 0 }
      else c
  | .retryClick =>
      -- lines 275-285: the button is rendered only in the error branch;
      -- clicking it calls getLocalCamera (synchronous prefix as above).
      match c.errorMsg with
      | some _ => { c with isLoading := true, errorMsg := none, acquiring := true }
      | none => c
  | .samplingTick loud =>
      -- one iteration of detectVolume (lines 166-184) of a running loop:
      -- possible only while at least one loop is running.
      if 0 < c.loops then
        if loud then { c with isSpeaking := true, timerArmed := true }
        else c
      else c
  | .silenceFire =>
      -- lines 178-180: a still-armed silence timeout sets isSpeaking false.
      if c.timerArmed then { c with isSpeaking := false, timerArmed := false }
      else c
  | .dispose =>
      -- lines 224-230: stop every track of localStream; nothing else is
      -- cancelled (no cancelAnimationFrame, no clearTimeout, no
      -- removeEventListener for enableAudio).
      { c with stoppedTracks := c.stoppedTracks ++ localTracks c,
               disposed := true }

/-- Run a sequence of events from a state. -/
def run (c : Ctrl) (evs : List Ev) : Ctrl :=
  evs.foldl (fun c e => step e c) c

/-- The rendered presentation state (lines 244-316): the loading spinner,
the error panel, the live video, or the placeholder, in that order. -/
inductive PState where
  | loading
  | error (msg : String)
  | playing
  | idle
deriving DecidableEq, Repr

/-- Which of the four render branches is shown (lines 244, 258, 287). -/
def pstate (c : Ctrl) : PState :=
  if c.isLoading then .loading
  else
    match c.errorMsg with
    | some m => .error m
    | none =>
        match currentStream c with
        | some _ => .playing
        | none => .idle

/-! ### Sample data and claim-specific predicates -/

/-- A microphone track, as produced inside a `getUserMedia` stream. -/
def audioTrack : Track := { tid := 10, isAudio := true }

/-- A camera track. -/
def videoTrack : Track := { tid := 11, isAudio := false }

/-- A sample self-acquired camera stream (audio + video). -/
def camStream : MediaStream := { sid := 1, tracks := [audioTrack, videoTrack] }

/-- A sample externally supplied remote stream. -/
def remoteStreamA : MediaStream :=
  { sid := 2, tracks := [{ tid := 20, isAudio := true }, { tid := 21, isAudio := false }] }

/-- A second, distinct externally supplied remote stream. -/
def remoteStreamB : MediaStream :=
  { sid := 3, tracks := [{ tid := 30, isAudio := true }, { tid := 31, isAudio := false }] }

/-- An externally supplied stream with zero audio tracks. -/
def videoOnlyStream : MediaStream :=
  { sid := 4, tracks := [{ tid := 40, isAudio := false }] }

/-- A local instance that acquired the camera, saw one loud sample (so a
silence timeout is pending and a sampling loop is running) and was then
unmounted. -/
def disposedCtrl : Ctrl :=
  run (initCtrl none false)
    [Ev.attachEffect true, Ev.acquireOk camStream true,
     Ev.samplingTick true, Ev.dispose]

/-- A remote instance whose first playback start was autoplay-blocked:
one enableAudio closure is registered for click and for touchstart. -/
def blockedRemoteCtrl : Ctrl :=
  step (Ev.attachEffect false) (initCtrl (some remoteStreamA) true)

/-- A local instance whose attach effect has begun getLocalCamera: a
getUserMedia request is outstanding. -/
def acquiringCtrl : Ctrl :=
  step (Ev.attachEffect true) (initCtrl none false)

/-- A local instance that self-acquired the camera and was then handed an
external stream: both a local and an external stream exist. -/
def precedenceCtrl : Ctrl :=
  run (initCtrl none false)
    [Ev.attachEffect true, Ev.acquireOk camStream true,
     Ev.propsChange (some remoteStreamA) false]

/-- Ownership invariant: every track ever stopped was self-acquired, and
the tracks of the currently stored `localStream` are self-acquired. -/
def OwnedStops (c : Ctrl) : Prop :=
  (∀ t ∈ c.stoppedTracks, t ∈ c.selfTracks) ∧
  (∀ t ∈ localTracks c, t ∈ c.selfTracks)

/-- Events consisting only of acquisition failures and retry-button
presses. -/
def failureOrRetry : Ev → Bool
  | .acquireFail _ => true
  | .retryClick => true
  | _ => false

/-- Events compatible with the analysis-unavailable scenario for external
stream `s`: the props stay fixed, and any run of the audio-detection
effect either finds no audio track on `s` or fails to construct the
analysis node. -/
def analysisUnavailable (s : MediaStream) : Ev → Bool
  | .propsChange _ _ => false
  | .audioEffect b => s.audioTracks.isEmpty || !b
  | _ => true

/-- Degraded-mode invariant for an instance holding external stream `s`
whose analysis never starts: no local stream, no sampling loop, not
speaking, no error, no outstanding acquisition, no silence timeout. -/
def DegradedInv (s : MediaStream) (c : Ctrl) : Prop :=
  c.streamProp = some s ∧ c.localStream = none ∧ c.loops = 0 ∧
  c.isSpeaking = false ∧ c.errorMsg = none ∧ c.acquiring = false ∧
  c.timerArmed = false

/-! ### Theorems -/

/-- C1: In the sampling loop, for every tick, a mean frequency magnitude
at or below 20 never sets `speaking` true and leaves `speaking` (indeed
the whole detector state) unchanged; a mean magnitude above 20 sets
`speaking` true within that tick and (re)arms an 800 ms silence timer,
cancelling any previously armed timer (the stored deadline is overwritten
with `now + 800`); a tick never turns `speaking` from true to false, and
the silence-timeout callback turns `speaking` false only when a timer is
still armed and its 800 ms deadline has passed with no intervening
above-threshold reading (which would have moved the deadline later). -/
theorem detectVolume_threshold_and_debounce :
    (∀ (now : Nat) (mags : List Nat) (s : VadState),
        average mags ≤ 20 → detectVolumeTick now mags s = s) ∧
    (∀ (now : Nat) (mags : List Nat) (s : VadState),
        20 < average mags →
        (detectVolumeTick now mags s).speaking = true ∧
        (detectVolumeTick now mags s).silenceDeadline = some (now + 800)) ∧
    (∀ (now : Nat) (mags : List Nat) (s : VadState),
        (detectVolumeTick now mags s).speaking = false → s.speaking = false) ∧
    (∀ (now : Nat) (s : VadState),
        s.speaking = true → (silenceTimerFire now s).speaking = false →
        ∃ d, s.silenceDeadline = some d ∧ d ≤ now) := by
  refine ⟨?_, ?_, ?_, ?_⟩
  · intro now mags s h
    simp [detectVolumeTick, not_lt.mpr h]
  · intro now mags s h
    simp [detectVolumeTick, h]
  · intro now mags s h
    by_cases hm : 20 < average mags
    · simp [detectVolumeTick, hm] at h
    · simpa [detectVolumeTick, hm] using h
  · intro now s hs h
    rcases hd : s.silenceDeadline with _ | d
    · simp [silenceTimerFire, hd, hs] at h
    · refine ⟨d, rfl, ?_⟩
      by_contra hle
      simp [silenceTimerFire, hd, hle, hs] at h

/-- Witness for C1 at concrete inputs: a quiet frame (mean 5) leaves the
idle detector unchanged; a loud frame (mean 25) at time 100 sets
`speaking` and arms the deadline 900; a firing at time 900 of a timer
armed for 900 has a due deadline. -/
theorem detectVolume_threshold_and_debounce_witness :
    average [5, 5] ≤ 20 ∧
    detectVolumeTick 0 [5, 5] { speaking := false, silenceDeadline := none } =
      { speaking := false, silenceDeadline := none } ∧
    20 < average [25, 25] ∧
    (detectVolumeTick 100 [25, 25] { speaking := false, silenceDeadline := none }).speaking
      = true ∧
    (detectVolumeTick 100 [25, 25] { speaking := false, silenceDeadline := none }).silenceDeadline
      = some 900 ∧
    (∃ d, (({ speaking := true, silenceDeadline := some 900 } : VadState).silenceDeadline
      = some d) ∧ d ≤ 900) := by
  have h1 : average [5, 5] ≤ 20 := by
    norm_num [average]
  have h2 : 20 < average [25, 25] := by
    norm_num [average]
  have fire : (silenceTimerFire 900
      { speaking := true, silenceDeadline := some 900 }).speaking = false := rfl
  refine ⟨h1, detectVolume_threshold_and_debounce.1 0 [5, 5] _ h1, h2, ?_, ?_, ?_⟩
  · exact (detectVolume_threshold_and_debounce.2.1 100 [25, 25] _ h2).1
  · exact (detectVolume_threshold_and_debounce.2.1 100 [25, 25] _ h2).2
  · exact detectVolume_threshold_and_debounce.2.2.2 900
      { speaking := true, silenceDeadline := some 900 } rfl fire

/-- No transition ever decreases the number of running sampling loops:
the source contains no cancelAnimationFrame, so a started detectVolume
loop is never retired. -/
theorem loops_monotone (e : Ev) (c : Ctrl) : c.loops ≤ (step e c).loops := by
  cases e <;> simp only [step, setupAudioAnalyser] <;>
    (repeat' split) <;> simp_arith

/-- C2: refuted on the code. The claim says at most one AnalysisSession
(sampling loop) is ever active and a prior one is retired before a new
buffer is created; but after a single successful local camera acquisition
the code starts the sampling loop twice — once from getLocalCamera (line
111) and once more from the audio-level-detection effect (line 149) when
`localStream` changes — and no transition ever retires a loop, so two
sampling loops run concurrently. -/
theorem two_sampling_loops_after_local_acquire :
    (run (initCtrl none false)
      [Ev.attachEffect true, Ev.acquireOk camStream true,
       Ev.audioEffect true]).loops = 2 ∧
    ∀ (e : Ev) (c : Ctrl), c.loops ≤ (step e c).loops :=
  ⟨by decide, loops_monotone⟩

/-- C3: refuted on the code. The claim says at most one pending
unlock-on-interaction binding exists and arming a new one cancels the
prior one; but each autoplay-blocked playback start on a remote instance
registers a fresh enableAudio closure for click and touchstart (lines
59-60) without removing the previous one, so after two blocked starts two
bindings are pending simultaneously. -/
theorem unlock_listeners_stack :
    (run (initCtrl (some remoteStreamA) true)
      [Ev.attachEffect false, Ev.propsChange (some remoteStreamB) true,
       Ev.attachEffect false]).clickRegs = 2 ∧
    (run (initCtrl (some remoteStreamA) true)
      [Ev.attachEffect false, Ev.propsChange (some remoteStreamB) true,
       Ev.attachEffect false]).touchRegs = 2 := by
  constructor <;> decide

/-- C4: refuted on the code. The claim says disposal cancels the sampling
loop's re-scheduling and clears any pending silence timer; but the unmount
cleanup (lines 224-230) only stops localStream tracks — it never calls
cancelAnimationFrame or clearTimeout — so disposal changes neither `loops`
nor `timerArmed`, and in the concrete disposed state both the pending
silence timeout and a further sampling iteration still take effect. -/
theorem dispose_cancels_neither_loop_nor_timer :
    (∀ c : Ctrl, (step Ev.dispose c).loops = c.loops ∧
        (step Ev.dispose c).timerArmed = c.timerArmed) ∧
    disposedCtrl.disposed = true ∧
    disposedCtrl.loops = 1 ∧
    disposedCtrl.timerArmed = true ∧
    (step Ev.silenceFire disposedCtrl).isSpeaking = false ∧
    (step (Ev.samplingTick true) (step Ev.silenceFire disposedCtrl)).isSpeaking
      = true := by
  refine ⟨fun c => ⟨rfl, rfl⟩, ?_, ?_, ?_, ?_, ?_⟩ <;> decide

/-- Frame analysis of `step` on the ownership-relevant fields: every
transition either leaves `stoppedTracks`, `selfTracks` and `localStream`
untouched, or is a successful acquisition (stops at most the old local
tracks, registers the new stream's tracks as self-acquired, stores the
new stream), or is disposal (stops exactly the local tracks). -/
theorem step_ownership_frame (e : Ev) (c : Ctrl) :
    ((step e c).stoppedTracks = c.stoppedTracks ∧
     (step e c).selfTracks = c.selfTracks ∧
     (step e c).localStream = c.localStream) ∨
    (∃ s ok, e = Ev.acquireOk s ok ∧
       ((step e c).stoppedTracks = c.stoppedTracks ∨
        (step e c).stoppedTracks = c.stoppedTracks ++ localTracks c) ∧
       (step e c).selfTracks = c.selfTracks ++ s.tracks ∧
       (step e c).localStream = some s) ∨
    (e = Ev.dispose ∧
       (step e c).stoppedTracks = c.stoppedTracks ++ localTracks c ∧
       (step e c).selfTracks = c.selfTracks ∧
       (step e c).localStream = c.localStream) := by
  cases e with
  | acquireOk s ok =>
      by_cases ha : c.acquiring
      · refine Or.inr (Or.inl ⟨s, ok, rfl, ?_, ?_, ?_⟩) <;>
          simp only [step, setupAudioAnalyser, ha, if_true] <;>
          (repeat' split) <;> simp
      · exact Or.inl (by simp [step, ha])
  | dispose =>
      exact Or.inr (Or.inr ⟨rfl, rfl, rfl, rfl⟩)
  | _ =>
      refine Or.inl ?_
      simp only [step, setupAudioAnalyser]
      (repeat' split) <;> simp

/-- The list `localTracks` depends only on the `localStream` field. -/
theorem localTracks_congr {c₁ c₂ : Ctrl} (h : c₁.localStream = c₂.localStream) :
    localTracks c₁ = localTracks c₂ := by
  simp [localTracks, h]

/-- Invariant `OwnedStops` is preserved by every transition. -/
theorem ownedStops_step (e : Ev) {c : Ctrl} (h : OwnedStops c) :
    OwnedStops (step e c) := by
  obtain ⟨h1, h2⟩ := h
  rcases step_ownership_frame e c with
      ⟨hs, hf, hl⟩ | ⟨s, ok, _, hs, hf, hl⟩ | ⟨_, hs, hf, hl⟩
  · refine ⟨?_, ?_⟩
    · rw [hs, hf]; exact h1
    · rw [localTracks_congr hl, hf]; exact h2
  · refine ⟨?_, ?_⟩
    · intro t ht
      rw [hf]
      rcases hs with hs | hs
      · rw [hs] at ht
        exact List.mem_append_left _ (h1 t ht)
      · rw [hs] at ht
        rcases List.mem_append.mp ht with ht | ht
        · exact List.mem_append_left _ (h1 t ht)
        · exact List.mem_append_left _ (h2 t ht)
    · intro t ht
      rw [hf]
      have : localTracks (step e c) = s.tracks := by simp [localTracks, hl]
      rw [this] at ht
      exact List.mem_append_right _ ht
  · refine ⟨?_, ?_⟩
    · intro t ht
      rw [hf]
      rw [hs] at ht
      rcases List.mem_append.mp ht with ht | ht
      · exact h1 t ht
      · exact h2 t ht
    · rw [localTracks_congr hl, hf]; exact h2

/-- Invariant `OwnedStops` is preserved by every run. -/
theorem ownedStops_run (evs : List Ev) {c : Ctrl} (h : OwnedStops c) :
    OwnedStops (run c evs) := by
  induction evs generalizing c with
  | nil => exact h
  | cons e evs ih => exact ih (ownedStops_step e h)

/-- C5: confirmed. Along every execution of the component (any props, any
playback outcomes, any track observation, any retries, any teardown),
every track on which `track.stop()` was ever called is a track of a
self-acquired (getUserMedia) stream: the only stop site is the cleanup
over `localStream` (line 227).  Consequently a track of an externally
supplied stream — one never returned by getUserMedia, i.e. outside
`selfTracks` — is never stopped. -/
theorem external_tracks_never_stopped (s0 : Option MediaStream)
    (remote : Bool) (evs : List Ev) (t : Track)
    (hstop : t ∈ (run (initCtrl s0 remote) evs).stoppedTracks) :
    t ∈ (run (initCtrl s0 remote) evs).selfTracks := by
  have h0 : OwnedStops (initCtrl s0 remote) := by
    constructor <;> simp [initCtrl, localTracks]
  exact (ownedStops_run evs h0).1 t hstop

/-- Witness for C5: a local instance acquires the camera and is unmounted;
the stopped microphone track is indeed among the self-acquired tracks. -/
theorem external_tracks_never_stopped_witness :
    audioTrack ∈ (run (initCtrl none false)
      [Ev.attachEffect true, Ev.acquireOk camStream true,
       Ev.dispose]).stoppedTracks ∧
    audioTrack ∈ (run (initCtrl none false)
      [Ev.attachEffect true, Ev.acquireOk camStream true,
       Ev.dispose]).selfTracks :=
  ⟨by decide,
   external_tracks_never_stopped none false
     [Ev.attachEffect true, Ev.acquireOk camStream true, Ev.dispose]
     audioTrack (by decide)⟩

/-- C6: confirmed. A playback-start rejection (autoplay block) is never
surfaced as a user-facing error: the attach effect on a present stream
leaves `error` exactly as it was and still ends the loading state (line
45); and across all transitions, the only way `error` becomes set is the
getUserMedia catch block (lines 115-119) — only device-acquisition
failures produce the user-visible error state. -/
theorem autoplay_block_never_surfaced_as_error :
    (∀ (c : Ctrl) (s : MediaStream), c.streamProp = some s →
        (step (Ev.attachEffect false) c).errorMsg = c.errorMsg ∧
        (step (Ev.attachEffect false) c).isLoading = false) ∧
    (∀ (e : Ev) (c : Ctrl) (m : String),
        (step e c).errorMsg = some m →
        c.errorMsg = some m ∨ ∃ msg, e = Ev.acquireFail msg) := by
  constructor
  · intro c s hp
    constructor <;> simp only [step, hp] <;> (repeat' split) <;> simp
  · intro e c m h
    cases e <;>
      first
        | exact Or.inr ⟨_, rfl⟩
        | (left
           revert h
           simp only [step, setupAudioAnalyser]
           (repeat' split) <;> (intro h; simp_all))

/-- Witness for C6: a remote instance with a supplied stream whose play()
is rejected keeps `error = none` and leaves loading; and a concrete
acquisition failure is classified as such by the propagation clause. -/
theorem autoplay_block_never_surfaced_as_error_witness :
    (initCtrl (some remoteStreamA) true).streamProp = some remoteStreamA ∧
    (step (Ev.attachEffect false) (initCtrl (some remoteStreamA) true)).errorMsg
      = (initCtrl (some remoteStreamA) true).errorMsg ∧
    (step (Ev.attachEffect false) (initCtrl (some remoteStreamA) true)).isLoading
      = false ∧
    (step (Ev.acquireFail "denied") acquiringCtrl).errorMsg = some "denied" ∧
    (acquiringCtrl.errorMsg = some "denied" ∨
      ∃ msg, Ev.acquireFail "denied" = Ev.acquireFail msg) :=
  ⟨rfl,
   (autoplay_block_never_surfaced_as_error.1 _ _ rfl).1,
   (autoplay_block_never_surfaced_as_error.1 _ _ rfl).2,
   rfl,
   autoplay_block_never_surfaced_as_error.2 (Ev.acquireFail "denied")
     acquiringCtrl "denied" rfl⟩

/-- C7: confirmed. When playback of a supplied stream is rejected on a
remote instance, one enableAudio closure is registered for click and one
for touchstart (lines 59-60); on a local (non-remote) instance none is
registered.  When the registered closure fires on the next interaction
with the sink still present, it unmutes, sets volume to 1.0, retries
play() exactly once, and removes both the click and touchstart
registrations; and the transition is identical whether the retried play
succeeds or fails. -/
theorem blocked_remote_playback_arms_one_shot_unlock :
    (∀ (c : Ctrl) (s : MediaStream), c.streamProp = some s →
        c.isRemote = true →
        (step (Ev.attachEffect false) c).clickRegs = c.clickRegs + 1 ∧
        (step (Ev.attachEffect false) c).touchRegs = c.touchRegs + 1) ∧
    (∀ (c : Ctrl) (s : MediaStream), c.streamProp = some s →
        c.isRemote = false →
        (step (Ev.attachEffect false) c).clickRegs = c.clickRegs ∧
        (step (Ev.attachEffect false) c).touchRegs = c.touchRegs) ∧
    (∀ (c : Ctrl) (ok : Bool), c.clickRegs = 1 → c.disposed = false →
        (step (Ev.interact ok) c).sinkMuted = false ∧
        (step (Ev.interact ok) c).sinkVolume = 1 ∧
        (step (Ev.interact ok) c).playCalls = c.playCalls + 1 ∧
        (step (Ev.interact ok) c).clickRegs = 0 ∧
        (step (Ev.interact ok) c).touchRegs = 0) ∧
    (∀ c : Ctrl, step (Ev.interact true) c = step (Ev.interact false) c) := by
  refine ⟨?_, ?_, ?_, fun c => rfl⟩
  · intro c s hp hr
    constructor <;> simp [step, hp, hr]
  · intro c s hp hr
    constructor <;> simp [step, hp, hr]
  · intro c ok h1 hd
    refine ⟨?_, ?_, ?_, ?_, ?_⟩ <;> simp [step, h1, hd]

/-- Witness for C7: concrete remote instance blocked once (listener pair
armed), concrete local instance blocked (nothing armed), and the armed
closure fired by a click (unmute, full volume, one retry, both
registrations gone). -/
theorem blocked_remote_playback_arms_one_shot_unlock_witness :
    (initCtrl (some remoteStreamA) true).streamProp = some remoteStreamA ∧
    (initCtrl (some remoteStreamA) true).isRemote = true ∧
    (step (Ev.attachEffect false) (initCtrl (some remoteStreamA) true)).clickRegs
      = (initCtrl (some remoteStreamA) true).clickRegs + 1 ∧
    (step (Ev.attachEffect false) (initCtrl (some remoteStreamA) true)).touchRegs
      = (initCtrl (some remoteStreamA) true).touchRegs + 1 ∧
    (initCtrl (some remoteStreamA) false).isRemote = false ∧
    (step (Ev.attachEffect false) (initCtrl (some remoteStreamA) false)).clickRegs
      = (initCtrl (some remoteStreamA) false).clickRegs ∧
    blockedRemoteCtrl.clickRegs = 1 ∧
    blockedRemoteCtrl.disposed = false ∧
    (step (Ev.interact true) blockedRemoteCtrl).sinkMuted = false ∧
    (step (Ev.interact true) blockedRemoteCtrl).sinkVolume = 1 ∧
    (step (Ev.interact true) blockedRemoteCtrl).playCalls
      = blockedRemoteCtrl.playCalls + 1 ∧
    (step (Ev.interact true) blockedRemoteCtrl).clickRegs = 0 ∧
    (step (Ev.interact true) blockedRemoteCtrl).touchRegs = 0 :=
  ⟨rfl, rfl,
   (blocked_remote_playback_arms_one_shot_unlock.1 _ remoteStreamA rfl rfl).1,
   (blocked_remote_playback_arms_one_shot_unlock.1 _ remoteStreamA rfl rfl).2,
   rfl,
   (blocked_remote_playback_arms_one_shot_unlock.2.1 _ remoteStreamA rfl rfl).1,
   rfl, rfl,
   (blocked_remote_playback_arms_one_shot_unlock.2.2.1 blockedRemoteCtrl true
      rfl rfl).1,
   (blocked_remote_playback_arms_one_shot_unlock.2.2.1 blockedRemoteCtrl true
      rfl rfl).2.1,
   (blocked_remote_playback_arms_one_shot_unlock.2.2.1 blockedRemoteCtrl true
      rfl rfl).2.2.1,
   (blocked_remote_playback_arms_one_shot_unlock.2.2.1 blockedRemoteCtrl true
      rfl rfl).2.2.2.1,
   (blocked_remote_playback_arms_one_shot_unlock.2.2.1 blockedRemoteCtrl true
      rfl rfl).2.2.2.2⟩

/-- Transitions consisting of an acquisition failure or a retry press
leave the stored local stream, the self-acquired track set and the
stopped track set untouched: a failing acquire performs no partial
allocation, and a retry only flips the loading/error flags before
issuing a fresh request. -/
theorem failureOrRetry_frame {e : Ev} (he : failureOrRetry e = true)
    (c : Ctrl) :
    (step e c).localStream = c.localStream ∧
    (step e c).selfTracks = c.selfTracks ∧
    (step e c).stoppedTracks = c.stoppedTracks := by
  cases e <;>
    first
      | (simp only [step]
         (repeat' split) <;> exact ⟨rfl, rfl, rfl⟩)
      | simp [failureOrRetry] at he

/-- C8: confirmed. A failed acquisition performs no partial allocation —
the catch block (lines 115-119) only records the error, leaving the
stored self-owned handle and the set of acquired tracks exactly as they
were — so after any sequence of acquisition failures and retry presses
(N consecutive failures included) the component holds exactly the handles
it held before: no device handle leaks, and there is never a partial
handle left for a retry to release. -/
theorem failed_acquisitions_leak_nothing (c : Ctrl) (evs : List Ev)
    (h : evs.all failureOrRetry = true) :
    (run c evs).localStream = c.localStream ∧
    (run c evs).selfTracks = c.selfTracks ∧
    (run c evs).stoppedTracks = c.stoppedTracks := by
  induction evs generalizing c with
  | nil => exact ⟨rfl, rfl, rfl⟩
  | cons e evs ih =>
      rw [List.all_cons, Bool.and_eq_true] at h
      obtain ⟨he, hall⟩ := h
      have hstep := failureOrRetry_frame he c
      have hrest := ih (step e c) hall
      exact ⟨hrest.1.trans hstep.1, hrest.2.1.trans hstep.2.1,
             hrest.2.2.trans hstep.2.2⟩

/-- Witness for C8: two consecutive permission-denied failures with a
retry press in between, starting from an outstanding first request:
no local stream is stored and no track is acquired or stopped. -/
theorem failed_acquisitions_leak_nothing_witness :
    ([Ev.acquireFail "denied", Ev.retryClick,
      Ev.acquireFail "denied"].all failureOrRetry) = true ∧
    (run acquiringCtrl [Ev.acquireFail "denied", Ev.retryClick,
      Ev.acquireFail "denied"]).localStream = acquiringCtrl.localStream ∧
    (run acquiringCtrl [Ev.acquireFail "denied", Ev.retryClick,
      Ev.acquireFail "denied"]).selfTracks = acquiringCtrl.selfTracks ∧
    (run acquiringCtrl [Ev.acquireFail "denied", Ev.retryClick,
      Ev.acquireFail "denied"]).stoppedTracks = acquiringCtrl.stoppedTracks :=
  ⟨by decide,
   (failed_acquisitions_leak_nothing acquiringCtrl _ (by decide)).1,
   (failed_acquisitions_leak_nothing acquiringCtrl _ (by decide)).2.1,
   (failed_acquisitions_leak_nothing acquiringCtrl _ (by decide)).2.2⟩

/-- Invariant `DegradedInv` is preserved by every analysis-unavailable transition. -/
theorem degradedInv_step {s : MediaStream} (e : Ev) {c : Ctrl}
    (hinv : DegradedInv s c) (he : analysisUnavailable s e = true) :
    DegradedInv s (step e c) := by
  obtain ⟨hp, hl, hlo, hsp, herr, hacq, htm⟩ := hinv
  cases e <;>
    (refine ⟨?_, ?_, ?_, ?_, ?_, ?_, ?_⟩ <;>
      simp only [step, setupAudioAnalyser, audioEffectTarget,
        currentStream, hp, hl, hlo, hsp, herr, hacq, htm] <;>
      (repeat' split) <;> simp_all [analysisUnavailable])

/-- Invariant `DegradedInv` is preserved by every analysis-unavailable run. -/
theorem degradedInv_run {s : MediaStream} (evs : List Ev) {c : Ctrl}
    (hinv : DegradedInv s c) (h : evs.all (analysisUnavailable s) = true) :
    DegradedInv s (run c evs) := by
  induction evs generalizing c with
  | nil => exact hinv
  | cons e evs ih =>
      rw [List.all_cons, Bool.and_eq_true] at h
      exact ih (degradedInv_step e hinv h.1) h.2

/-- In degraded mode, once loading has ended no analysis-unavailable
transition restarts it. -/
theorem degraded_notLoading_step {s : MediaStream} (e : Ev) {c : Ctrl}
    (hinv : DegradedInv s c) (he : analysisUnavailable s e = true)
    (hld : c.isLoading = false) : (step e c).isLoading = false := by
  obtain ⟨hp, hl, hlo, hsp, herr, hacq, htm⟩ := hinv
  cases e <;>
    (simp only [step, setupAudioAnalyser, audioEffectTarget,
       currentStream, hp, hl, hlo, hsp, herr, hacq, htm, hld] <;>
     (repeat' split) <;> simp_all [analysisUnavailable])

/-- Run-level version of `degraded_notLoading_step`. -/
theorem degraded_notLoading_run {s : MediaStream} (evs : List Ev) {c : Ctrl}
    (hinv : DegradedInv s c) (h : evs.all (analysisUnavailable s) = true)
    (hld : c.isLoading = false) : (run c evs).isLoading = false := by
  induction evs generalizing c with
  | nil => exact hld
  | cons e evs ih =>
      rw [List.all_cons, Bool.and_eq_true] at h
      exact ih (degradedInv_step e hinv h.1) h.2
        (degraded_notLoading_step e hinv h.1 hld)

/-- C9: confirmed. If the supplied stream has zero audio tracks, or every
attempt to construct the analysis node fails, then along any execution
(props held fixed) no AnalysisSession is ever created (`loops = 0`),
`speaking` remains permanently false, no error is surfaced, and once the
attach effect has run the component renders the Playing branch. -/
theorem analysis_unavailable_degrades_gracefully (s : MediaStream)
    (remote : Bool) (evs1 evs2 : List Ev) (b : Bool)
    (h : (evs1 ++ Ev.attachEffect b :: evs2).all (analysisUnavailable s)
      = true) :
    (run (initCtrl (some s) remote)
      (evs1 ++ Ev.attachEffect b :: evs2)).loops = 0 ∧
    (run (initCtrl (some s) remote)
      (evs1 ++ Ev.attachEffect b :: evs2)).isSpeaking = false ∧
    (run (initCtrl (some s) remote)
      (evs1 ++ Ev.attachEffect b :: evs2)).errorMsg = none ∧
    pstate (run (initCtrl (some s) remote)
      (evs1 ++ Ev.attachEffect b :: evs2)) = PState.playing := by
  rw [List.all_append, Bool.and_eq_true] at h
  obtain ⟨ha1, h2⟩ := h
  rw [List.all_cons, Bool.and_eq_true] at h2
  obtain ⟨hb, ha2⟩ := h2
  have hinv0 : DegradedInv s (initCtrl (some s) remote) :=
    ⟨rfl, rfl, rfl, rfl, rfl, rfl, rfl⟩
  have hinv1 := degradedInv_run evs1 hinv0 ha1
  have hinv2 := degradedInv_step (Ev.attachEffect b) hinv1 hb
  have hld2 : (step (Ev.attachEffect b)
      (run (initCtrl (some s) remote) evs1)).isLoading = false := by
    obtain ⟨hp, _⟩ := hinv1
    simp only [step, hp]
    (repeat' split) <;> simp
  have hrun : run (initCtrl (some s) remote)
      (evs1 ++ Ev.attachEffect b :: evs2)
      = run (step (Ev.attachEffect b)
          (run (initCtrl (some s) remote) evs1)) evs2 := by
    simp [run, List.foldl_append]
  rw [hrun]
  have hinv3 := degradedInv_run evs2 hinv2 ha2
  have hld3 := degraded_notLoading_run evs2 hinv2 ha2 hld2
  obtain ⟨hp3, hl3, hlo3, hsp3, herr3, hacq3, htm3⟩ := hinv3
  refine ⟨hlo3, hsp3, herr3, ?_⟩
  simp [pstate, hld3, herr3, currentStream, hp3]

/-- Witness for C9: a video-only external stream on a local instance; the
attach effect runs, the audio-level effect runs (and declines: no audio
track), a sampling tick is attempted, a click arrives — the component is
Playing, `speaking` is false and no loop exists. -/
theorem analysis_unavailable_degrades_gracefully_witness :
    (([] : List Ev) ++ Ev.attachEffect true ::
      [Ev.audioEffect true, Ev.samplingTick true, Ev.interact true]).all
      (analysisUnavailable videoOnlyStream) = true ∧
    (run (initCtrl (some videoOnlyStream) false)
      (([] : List Ev) ++ Ev.attachEffect true ::
        [Ev.audioEffect true, Ev.samplingTick true,
         Ev.interact true])).loops = 0 ∧
    (run (initCtrl (some videoOnlyStream) false)
      (([] : List Ev) ++ Ev.attachEffect true ::
        [Ev.audioEffect true, Ev.samplingTick true,
         Ev.interact true])).isSpeaking = false ∧
    pstate (run (initCtrl (some videoOnlyStream) false)
      (([] : List Ev) ++ Ev.attachEffect true ::
        [Ev.audioEffect true, Ev.samplingTick true, Ev.interact true]))
      = PState.playing :=
  ⟨by decide,
   (analysis_unavailable_degrades_gracefully videoOnlyStream false [] _ true
     (by decide)).1,
   (analysis_unavailable_degrades_gracefully videoOnlyStream false [] _ true
     (by decide)).2.1,
   (analysis_unavailable_degrades_gracefully videoOnlyStream false [] _ true
     (by decide)).2.2.2⟩

/-- C10: confirmed. `stream || localStream` (lines 124, 146, 232) selects
the externally supplied stream whenever it exists: it is the stream
attached to the sink by the attach effect, the stream whose track-set
changes are observed, and the stream the audio-level effect analyses on a
local instance; the self-acquired stream is selected only when no
external stream is supplied. -/
theorem external_stream_takes_precedence (c : Ctrl) (s l : MediaStream)
    (hs : c.streamProp = some s) (_hl : c.localStream = some l) :
    currentStream c = some s ∧
    trackEffectTarget c = some s ∧
    (c.isRemote = false → audioEffectTarget c = some s) ∧
    (∀ b, (step (Ev.attachEffect b) c).sinkSrc = some s) ∧
    (∀ c' : Ctrl, c'.streamProp = none → currentStream c' = c'.localStream)
    := by
  refine ⟨?_, ?_, ?_, ?_, ?_⟩
  · simp [currentStream, hs]
  · simp [trackEffectTarget, currentStream, hs]
  · intro hr
    simp [audioEffectTarget, hr, currentStream, hs]
  · intro b
    simp only [step, hs]
    (repeat' split) <;> simp
  · intro c' h
    simp [currentStream, h]

/-- Witness for C10: a local instance that acquired the camera and then
received an external stream selects the external one everywhere. -/
theorem external_stream_takes_precedence_witness :
    precedenceCtrl.streamProp = some remoteStreamA ∧
    precedenceCtrl.localStream = some camStream ∧
    currentStream precedenceCtrl = some remoteStreamA ∧
    trackEffectTarget precedenceCtrl = some remoteStreamA ∧
    audioEffectTarget precedenceCtrl = some remoteStreamA ∧
    (step (Ev.attachEffect true) precedenceCtrl).sinkSrc = some remoteStreamA
    :=
  ⟨rfl, rfl,
   (external_stream_takes_precedence precedenceCtrl remoteStreamA camStream
     rfl rfl).1,
   (external_stream_takes_precedence precedenceCtrl remoteStreamA camStream
     rfl rfl).2.1,
   (external_stream_takes_precedence precedenceCtrl remoteStreamA camStream
     rfl rfl).2.2.1 rfl,
   (external_stream_takes_precedence precedenceCtrl remoteStreamA camStream
     rfl rfl).2.2.2.1 true⟩

end VideoCall
